import Mathlib

/-!
Verification of the core algorithms of the GamesAI repository
(notebook Markov_vs_MonteCarlo.ipynb): the Monte Carlo state-action
value estimator with exploration-policy switching, and the policy
iteration solver.

Modelling conventions: Python floats are modelled by rationals; numpy
randomness is modelled by explicit oracles (one named draw per
np.random call); environment interaction (env.reset / env.step) is
modelled by an explicit step oracle; fallible paths (Python
exceptions, a loop that may not terminate, a convergence loop that
exhausts its budget) return Option / error values, with none standing
for a run that exceeds the modelling fuel.
-/

namespace GamesAI

/- ## Monte Carlo estimator (one_iteration, tiny_epsilon_choice, init_env) -/

/-- The 16 x 4 x 2 state-action value matrix sa_valmat of the
notebook.  Channel 0 (field value) is the running average reward
sa_valmat[s, a, 0]; channel 1 (field count) is the cumulative visit
count sa_valmat[s, a, 1]. -/
structure SAVal where
  value : Fin 16 → Fin 4 → ℚ
  count : Fin 16 → Fin 4 → ℚ

/-- The matrix built at the top of train_and_test:
np.zeros((16,4,2)) followed by sa_valmat[:,:,0] += 0.01.  The 0.01
seed lands on channel 0 (the running average); channel 1 (the visit
count) stays at zero. -/
def sa_valmat_init : SAVal where
  value := fun _ _ => 1 / 100
  count := fun _ _ => 0

/-- Randomness oracle: one named draw per np.random call.  choice k is
the k-th np.random.choice among the four actions (used by the random
policy, by the random branch of tiny_epsilon_choice, and for the
softmax sample, whose distribution has full support, so the sampled
action is arbitrary randomness); unif k is the k-th
np.random.uniform(0,1) draw. -/
structure RandOracle where
  choice : ℕ → Fin 4
  unif : ℕ → ℚ

/-- Environment oracle: step k s a is what env.step(a) returns at the
k-th step of the episode when the current state is s, as the triple
(next_state, reward, done). -/
structure EnvOracle where
  step : ℕ → Fin 16 → Fin 4 → Fin 16 × ℚ × Bool

/-- np.argmax over the four entries sa_valmat[state, :, 0]: the first
index attaining the maximum (a later entry replaces the incumbent only
when strictly greater). -/
def argmax4 (f : Fin 4 → ℚ) : Fin 4 :=
  let b1 : Fin 4 := if f 0 < f 1 then 1 else 0
  let b2 : Fin 4 := if f b1 < f 2 then 2 else b1
  if f b2 < f 3 then 3 else b2

/-- tiny_epsilon_choice of the notebook: draw random_shot =
np.random.uniform(0,1); if random_shot >= epsilon take the greedy
arg-max action over sa_valmat[state, :, 0], otherwise take the uniform
random draw randPick. -/
def tiny_epsilon_choice (sa_valmat : SAVal) (state : Fin 16) (epsilon : ℚ)
    (random_shot : ℚ) (randPick : Fin 4) : Fin 4 :=
  if epsilon ≤ random_shot then argmax4 (fun a => sa_valmat.value state a)
  else randPick

/-- The NameError raised in one_iteration when the policy string is
unrecognized: the if/elif chain assigns no action, so the following
line sa_occurence_matrix[state, action] += 1 raises. -/
def nameErrorAction : String := "NameError: name action is not defined"

/-- The exploration-policy dispatch at the top of the while-loop of
one_iteration (if policy == random / tiny_epsilon / softmax). -/
def selectAction (sa_valmat : SAVal) (policy : String) (epsilon : ℚ)
    (r : RandOracle) (k : ℕ) (state : Fin 16) : Except String (Fin 4) :=
  if policy = "random" then Except.ok (r.choice k)
  else if policy = "tiny_epsilon" then
    Except.ok (tiny_epsilon_choice sa_valmat state epsilon (r.unif k) (r.choice k))
  else if policy = "softmax" then Except.ok (r.choice k)
  else Except.error nameErrorAction

/-- Outcome of the while-loop of one_iteration: either the episode
finished (ok, carrying the per-episode occurrence matrix
sa_occurence_matrix, the list of step rewards in order, the running
maximum rew and step_count), or a Python exception was raised (err,
recording how many env.reset and env.step calls had happened before
the failure). -/
inductive SimOut where
  | ok (occ : Fin 16 → Fin 4 → ℕ) (rewards : List ℚ) (rew : ℚ) (stepCount : ℕ)
  | err (msg : String) (resets envSteps : ℕ)

/-- The while done == False loop of one_iteration, with explicit fuel
(the Python loop has no bound; none = fuel exhausted).  Each pass
increments step_count, selects an action, increments the occurrence
slot of the current (state, action), steps the environment and keeps
the running maximum of the rewards seen. -/
def episodeLoop (envO : EnvOracle) (r : RandOracle) (sa_valmat : SAVal)
    (policy : String) (epsilon : ℚ) :
    ℕ → (Fin 16 → Fin 4 → ℕ) → Fin 16 → List ℚ → ℚ → ℕ → Option SimOut
  | 0, _, _, _, _, _ => none
  | fuel + 1, occ, state, rewards, rew, stepCount =>
    match selectAction sa_valmat policy epsilon r (stepCount + 1) state with
    | Except.error e => some (SimOut.err e 1 stepCount)
    | Except.ok action =>
      let occ2 : Fin 16 → Fin 4 → ℕ :=
        fun i j => if i = state ∧ j = action then occ i j + 1 else occ i j
      if (envO.step (stepCount + 1) state action).2.2 then
        some (SimOut.ok occ2
          (rewards ++ [(envO.step (stepCount + 1) state action).2.1])
          (max rew (envO.step (stepCount + 1) state action).2.1)
          (stepCount + 1))
      else
        episodeLoop envO r sa_valmat policy epsilon fuel occ2
          (envO.step (stepCount + 1) state action).1
          (rewards ++ [(envO.step (stepCount + 1) state action).2.1])
          (max rew (envO.step (stepCount + 1) state action).2.1)
          (stepCount + 1)

/-- The end-of-episode update loop of one_iteration: for every slot
with sa_occurence_matrix[i,j] >= 1, first increment the count channel
sa_valmat[i,j,1] by the occurrence count, then move the average
channel sa_valmat[i,j,0] by (occ / updated count) * (rew - old
average); every other slot is left untouched. -/
def applyUpdate (sa_valmat : SAVal) (occ : Fin 16 → Fin 4 → ℕ) (rew : ℚ) : SAVal where
  count := fun i j =>
    if 1 ≤ occ i j then sa_valmat.count i j + (occ i j : ℚ)
    else sa_valmat.count i j
  value := fun i j =>
    if 1 ≤ occ i j then
      sa_valmat.value i j
        + ((occ i j : ℚ) / (sa_valmat.count i j + (occ i j : ℚ)))
          * (rew - sa_valmat.value i j)
    else sa_valmat.value i j

/-- Result of one_iteration: on success, the updated sa_valmat
together with the episode data (occurrence matrix, step rewards, rew,
step_count); on a Python exception, the error with its environment
interaction counts; none when the episode outruns the fuel. -/
inductive EpOut where
  | ok (sa_valmat : SAVal) (occ : Fin 16 → Fin 4 → ℕ) (rewards : List ℚ) (rew : ℚ)
      (stepCount : ℕ)
  | err (msg : String) (resets envSteps : ℕ)

/-- one_iteration of the notebook: init_env (one env.reset, occurrence
matrix zeroed, state 0, rew 0), then the episode loop, then the
end-of-episode incremental update. -/
def one_iteration (envO : EnvOracle) (r : RandOracle) (sa_valmat : SAVal)
    (policy : String) (epsilon : ℚ) (fuel : ℕ) : Option EpOut :=
  match episodeLoop envO r sa_valmat policy epsilon fuel (fun _ _ => 0) 0 [] 0 0 with
  | none => none
  | some (SimOut.err m a b) => some (EpOut.err m a b)
  | some (SimOut.ok occ rewards rew sc) =>
    some (EpOut.ok (applyUpdate sa_valmat occ rew) occ rewards rew sc)

/-- Did the modelled run of one_iteration return normally? -/
def epOk : Option EpOut → Bool
  | some (EpOut.ok _ _ _ _ _) => true
  | _ => false

/-- The sa_valmat returned by one_iteration (junk on a failed run). -/
def epSav : Option EpOut → SAVal
  | some (EpOut.ok s _ _ _ _) => s
  | _ => ⟨fun _ _ => 0, fun _ _ => 0⟩

/-- The within-episode occurrence matrix of the run (zero on a failed
run). -/
def epOccN : Option EpOut → Fin 16 → Fin 4 → ℕ
  | some (EpOut.ok _ o _ _ _) => o
  | _ => fun _ _ => 0

/-- The step rewards observed by the run, in order. -/
def epRewards : Option EpOut → List ℚ
  | some (EpOut.ok _ _ rs _ _) => rs
  | _ => []

/-- The episode reward rew returned by one_iteration. -/
def epRew : Option EpOut → ℚ
  | some (EpOut.ok _ _ _ rw _) => rw
  | _ => 0

/-- On a run that raised, the pair (number of env.reset calls, number
of env.step calls) performed before the exception. -/
def epErrInfo : Option EpOut → Option (ℕ × ℕ)
  | some (EpOut.err _ a b) => some (a, b)
  | _ => none

/-- A trivial environment: every step ends the episode with reward 0. -/
def envO0 : EnvOracle := ⟨fun _ _ _ => (0, 0, true)⟩

/-- An environment whose single step ends the episode with reward 1. -/
def envO1 : EnvOracle := ⟨fun _ _ _ => (0, 1, true)⟩

/-- A fixed randomness oracle: every choice is action 0, every uniform
draw is 0. -/
def rO0 : RandOracle := ⟨fun _ => 0, fun _ => 0⟩

/- ## Claim C6 -/

/-- Claim C6: for every state-action value matrix and state, the
bounded-greedy choice tiny_epsilon_choice with epsilon = 0 always
returns the arg-max action by current estimated value, for every drawn
random value in [0,1) (the random branch is never taken); and with
epsilon = 1 it always takes the uniform-random branch (the arg-max
branch is never taken). -/
theorem tiny_epsilon_boundary (sa_valmat : SAVal) (state : Fin 16)
    (random_shot : ℚ) (randPick : Fin 4)
    (h0 : 0 ≤ random_shot) (h1 : random_shot < 1) :
    tiny_epsilon_choice sa_valmat state 0 random_shot randPick
        = argmax4 (fun a => sa_valmat.value state a)
      ∧ tiny_epsilon_choice sa_valmat state 1 random_shot randPick = randPick := by
  constructor
  · simp [tiny_epsilon_choice, h0]
  · simp [tiny_epsilon_choice, not_le.mpr h1]

/-- Witness for C6 at a concrete draw. -/
theorem tiny_epsilon_boundary_witness :
    (0 : ℚ) ≤ 1 / 2 ∧ (1 / 2 : ℚ) < 1
      ∧ (tiny_epsilon_choice sa_valmat_init 0 0 (1 / 2) 2
            = argmax4 (fun a => sa_valmat_init.value 0 a)
          ∧ tiny_epsilon_choice sa_valmat_init 0 1 (1 / 2) 2 = 2) :=
  ⟨by norm_num, by norm_num,
    tiny_epsilon_boundary sa_valmat_init 0 (1 / 2) 2 (by norm_num) (by norm_num)⟩

/- ## Structure of a successful one_iteration run -/

/-- A run of one_iteration that returns normally is exactly an
episode-loop success followed by the end-of-episode update. -/
theorem one_iteration_ok_cases (envO : EnvOracle) (r : RandOracle) (sav : SAVal)
    (policy : String) (epsilon : ℚ) (fuel : ℕ)
    (hok : epOk (one_iteration envO r sav policy epsilon fuel) = true) :
    ∃ occ rewards rew sc,
      episodeLoop envO r sav policy epsilon fuel (fun _ _ => 0) 0 [] 0 0
          = some (SimOut.ok occ rewards rew sc)
        ∧ one_iteration envO r sav policy epsilon fuel
          = some (EpOut.ok (applyUpdate sav occ rew) occ rewards rew sc) := by
  cases h : episodeLoop envO r sav policy epsilon fuel (fun _ _ => 0) 0 [] 0 0 with
  | none =>
    have hX : one_iteration envO r sav policy epsilon fuel = none := by
      unfold one_iteration; rw [h]
    rw [hX] at hok; simp [epOk] at hok
  | some out =>
    cases out with
    | err m a b =>
      have hX : one_iteration envO r sav policy epsilon fuel
          = some (EpOut.err m a b) := by
        unfold one_iteration; rw [h]
      rw [hX] at hok; simp [epOk] at hok
    | ok occ rewards rew sc =>
      have hX : one_iteration envO r sav policy epsilon fuel
          = some (EpOut.ok (applyUpdate sav occ rew) occ rewards rew sc) := by
        unfold one_iteration; rw [h]
      exact ⟨occ, rewards, rew, sc, h ▸ rfl, hX⟩

/- ## Claim C1 -/

/-- Claim C1: after the episode ends, every (state, action) pair
visited one or more times has its cumulative visit count incremented
by its within-episode occurrence count, and its running average moved
by exactly (occurrences_this_episode / total_visit_count) *
(episode_reward - old_average), where total_visit_count is the pair's
(just updated) cumulative visit count. -/
theorem mc_incremental_update (envO : EnvOracle) (r : RandOracle) (sav : SAVal)
    (policy : String) (epsilon : ℚ) (fuel : ℕ) (i : Fin 16) (j : Fin 4)
    (hok : epOk (one_iteration envO r sav policy epsilon fuel) = true)
    (hv : 1 ≤ epOccN (one_iteration envO r sav policy epsilon fuel) i j) :
    (epSav (one_iteration envO r sav policy epsilon fuel)).count i j
        = sav.count i j
          + (epOccN (one_iteration envO r sav policy epsilon fuel) i j : ℚ)
      ∧ (epSav (one_iteration envO r sav policy epsilon fuel)).value i j
        = sav.value i j
          + ((epOccN (one_iteration envO r sav policy epsilon fuel) i j : ℚ)
              / (epSav (one_iteration envO r sav policy epsilon fuel)).count i j)
            * (epRew (one_iteration envO r sav policy epsilon fuel)
                - sav.value i j) := by
  obtain ⟨occ, rs, rw, sc, _, hX⟩ :=
    one_iteration_ok_cases envO r sav policy epsilon fuel hok
  rw [hX] at hv ⊢
  simp only [epSav, epOccN, epRew, applyUpdate] at hv ⊢
  simp [hv]

/-- Witness for C1: a one-step episode with terminal reward 1 under
the random policy, looked at slot (0, 0). -/
theorem mc_incremental_update_witness :
    epOk (one_iteration envO1 rO0 sa_valmat_init "random" (1 / 10) 5) = true
      ∧ 1 ≤ epOccN (one_iteration envO1 rO0 sa_valmat_init "random" (1 / 10) 5) 0 0
      ∧ ((epSav (one_iteration envO1 rO0 sa_valmat_init "random" (1 / 10) 5)).count 0 0
          = sa_valmat_init.count 0 0
            + (epOccN (one_iteration envO1 rO0 sa_valmat_init "random" (1 / 10) 5) 0 0 : ℚ)
        ∧ (epSav (one_iteration envO1 rO0 sa_valmat_init "random" (1 / 10) 5)).value 0 0
          = sa_valmat_init.value 0 0
            + ((epOccN (one_iteration envO1 rO0 sa_valmat_init "random" (1 / 10) 5) 0 0 : ℚ)
                / (epSav (one_iteration envO1 rO0 sa_valmat_init "random" (1 / 10) 5)).count 0 0)
              * (epRew (one_iteration envO1 rO0 sa_valmat_init "random" (1 / 10) 5)
                  - sa_valmat_init.value 0 0)) :=
  ⟨by decide, by decide,
    mc_incremental_update envO1 rO0 sa_valmat_init "random" (1 / 10) 5 0 0
      (by decide) (by decide)⟩

/- ## Claim C9 -/

/-- Claim C9: a (state, action) pair whose within-episode occurrence
count is zero has both of its fields (running average and cumulative
visit count) left unchanged by the end-of-episode update. -/
theorem unvisited_pairs_unchanged (envO : EnvOracle) (r : RandOracle) (sav : SAVal)
    (policy : String) (epsilon : ℚ) (fuel : ℕ) (i : Fin 16) (j : Fin 4)
    (hok : epOk (one_iteration envO r sav policy epsilon fuel) = true)
    (hz : epOccN (one_iteration envO r sav policy epsilon fuel) i j = 0) :
    (epSav (one_iteration envO r sav policy epsilon fuel)).value i j = sav.value i j
      ∧ (epSav (one_iteration envO r sav policy epsilon fuel)).count i j
        = sav.count i j := by
  obtain ⟨occ, rs, rw, sc, _, hX⟩ :=
    one_iteration_ok_cases envO r sav policy epsilon fuel hok
  rw [hX] at hz ⊢
  simp only [epSav, epOccN, applyUpdate] at hz ⊢
  simp [hz]

/-- Witness for C9: in the one-step episode the slot (1, 0) is never
visited and keeps its fields. -/
theorem unvisited_pairs_unchanged_witness :
    epOk (one_iteration envO1 rO0 sa_valmat_init "random" (1 / 10) 5) = true
      ∧ epOccN (one_iteration envO1 rO0 sa_valmat_init "random" (1 / 10) 5) 1 0 = 0
      ∧ ((epSav (one_iteration envO1 rO0 sa_valmat_init "random" (1 / 10) 5)).value 1 0
          = sa_valmat_init.value 1 0
        ∧ (epSav (one_iteration envO1 rO0 sa_valmat_init "random" (1 / 10) 5)).count 1 0
          = sa_valmat_init.count 1 0) :=
  ⟨by decide, by decide,
    unvisited_pairs_unchanged envO1 rO0 sa_valmat_init "random" (1 / 10) 5 1 0
      (by decide) (by decide)⟩

/- ## Claim C10 -/

/-- Claim C10: one_iteration adds exactly the (non-negative)
within-episode occurrence count to each pair's cumulative visit count,
so counts never decrease across calls, and a non-negative count stays
non-negative. -/
theorem visit_counts_monotone (envO : EnvOracle) (r : RandOracle) (sav : SAVal)
    (policy : String) (epsilon : ℚ) (fuel : ℕ) (i : Fin 16) (j : Fin 4)
    (hok : epOk (one_iteration envO r sav policy epsilon fuel) = true) :
    (epSav (one_iteration envO r sav policy epsilon fuel)).count i j
        = sav.count i j
          + (epOccN (one_iteration envO r sav policy epsilon fuel) i j : ℚ)
      ∧ sav.count i j ≤ (epSav (one_iteration envO r sav policy epsilon fuel)).count i j
      ∧ (0 ≤ sav.count i j →
          0 ≤ (epSav (one_iteration envO r sav policy epsilon fuel)).count i j) := by
  obtain ⟨occ, rs, rw, sc, _, hX⟩ :=
    one_iteration_ok_cases envO r sav policy epsilon fuel hok
  rw [hX]
  simp only [epSav, epOccN, applyUpdate]
  by_cases hv : 1 ≤ occ i j
  · have h2 : (0 : ℚ) ≤ (occ i j : ℚ) := Nat.cast_nonneg _
    simp only [if_pos hv]
    exact ⟨by trivial, le_add_of_nonneg_right h2, fun h0 => by linarith⟩
  · have hz : occ i j = 0 := by omega
    simp [hz]

/-- Witness for C10 at slot (0, 0) of the one-step episode. -/
theorem visit_counts_monotone_witness :
    epOk (one_iteration envO1 rO0 sa_valmat_init "random" (1 / 10) 5) = true
      ∧ ((epSav (one_iteration envO1 rO0 sa_valmat_init "random" (1 / 10) 5)).count 0 0
          = sa_valmat_init.count 0 0
            + (epOccN (one_iteration envO1 rO0 sa_valmat_init "random" (1 / 10) 5) 0 0 : ℚ)
        ∧ sa_valmat_init.count 0 0
          ≤ (epSav (one_iteration envO1 rO0 sa_valmat_init "random" (1 / 10) 5)).count 0 0
        ∧ (0 ≤ sa_valmat_init.count 0 0 →
            0 ≤ (epSav (one_iteration envO1 rO0 sa_valmat_init "random" (1 / 10) 5)).count 0 0)) :=
  ⟨by decide,
    visit_counts_monotone envO1 rO0 sa_valmat_init "random" (1 / 10) 5 0 0 (by decide)⟩

/- ## Claim C5 -/

/-- Counterexample to claim C5 as stated: the claim attributes the
never-zero divisor to the initialization seeding all state-action
slots with a small non-zero initial value, but the 0.01 seed of
train_and_test lands on channel 0 (the running average), and the field
actually used as the divisor — the cumulative visit count, channel 1 —
is exactly zero at slot (0, 0) (indeed at every slot) after
initialization. -/
theorem division_guard_cex :
    sa_valmat_init.count 0 0 = 0 ∧ sa_valmat_init.value 0 0 = 1 / 100 :=
  ⟨rfl, rfl⟩

/-- Claim C5 (amended): in every run of one_iteration from a matrix
with non-negative visit counts (the initialized matrix has all counts
zero — the 0.01 seed goes to the average channel, not to the divisor),
the divisor of the incremental update, i.e. the cumulative count after
adding the within-episode occurrence count, is strictly positive: the
guard is the occurrence test (>= 1) together with the
increment-before-divide, not the initialization seed. -/
theorem division_guard (envO : EnvOracle) (r : RandOracle) (sav : SAVal)
    (policy : String) (epsilon : ℚ) (fuel : ℕ) (i : Fin 16) (j : Fin 4)
    (hcnt : 0 ≤ sav.count i j)
    (hok : epOk (one_iteration envO r sav policy epsilon fuel) = true)
    (hv : 1 ≤ epOccN (one_iteration envO r sav policy epsilon fuel) i j) :
    sa_valmat_init.count i j = 0
      ∧ 0 < sav.count i j
          + (epOccN (one_iteration envO r sav policy epsilon fuel) i j : ℚ) := by
  refine ⟨rfl, ?_⟩
  have h1 : (1 : ℚ) ≤ (epOccN (one_iteration envO r sav policy epsilon fuel) i j : ℚ) := by
    exact_mod_cast hv
  linarith

/-- Witness for C5 (amended) at slot (0, 0) of the one-step episode
started from the initialized matrix. -/
theorem division_guard_witness :
    (0 ≤ sa_valmat_init.count 0 0
        ∧ epOk (one_iteration envO1 rO0 sa_valmat_init "random" (1 / 10) 5) = true
        ∧ 1 ≤ epOccN (one_iteration envO1 rO0 sa_valmat_init "random" (1 / 10) 5) 0 0)
      ∧ (sa_valmat_init.count 0 0 = 0
        ∧ 0 < sa_valmat_init.count 0 0
            + (epOccN (one_iteration envO1 rO0 sa_valmat_init "random" (1 / 10) 5) 0 0 : ℚ)) :=
  ⟨⟨by decide, by decide, by decide⟩,
    division_guard envO1 rO0 sa_valmat_init "random" (1 / 10) 5 0 0
      (by decide) (by decide) (by decide)⟩

/- ## Claim C4 -/

/-- Counterexample to claim C4 as stated: with the unrecognized policy
name greedy, the run does fail, but the recorded environment
interaction counts at the failure are (resets, steps) = (1, 0): the
env.reset issued by init_env has already happened, so the failure is
not before any simulation begins. -/
theorem unrecognized_policy_cex :
    epErrInfo (one_iteration envO0 rO0 sa_valmat_init "greedy" (1 / 10) 5)
      = some (1, 0) := by
  decide

/-- Claim C4 (amended): for every exploration policy name outside
{random, tiny_epsilon, softmax}, one_iteration fails — with a Python
NameError on the undefined action variable rather than a checked
InvalidConfiguration — before any env.step call, but after the single
env.reset performed by init_env. -/
theorem unrecognized_policy_fails (envO : EnvOracle) (r : RandOracle) (sav : SAVal)
    (epsilon : ℚ) (fuel : ℕ) (policy : String)
    (h1 : policy ≠ "random") (h2 : policy ≠ "tiny_epsilon") (h3 : policy ≠ "softmax")
    (hf : 1 ≤ fuel) :
    one_iteration envO r sav policy epsilon fuel
      = some (EpOut.err nameErrorAction 1 0) := by
  obtain ⟨n, rfl⟩ : ∃ n, fuel = n + 1 := ⟨fuel - 1, by omega⟩
  unfold one_iteration
  simp [episodeLoop, selectAction, h1, h2, h3]

/-- Witness for C4 (amended) at the concrete policy name greedy. -/
theorem unrecognized_policy_fails_witness :
    (("greedy" : String) ≠ "random" ∧ ("greedy" : String) ≠ "tiny_epsilon"
        ∧ ("greedy" : String) ≠ "softmax" ∧ 1 ≤ 5)
      ∧ one_iteration envO0 rO0 sa_valmat_init "greedy" (1 / 10) 5
        = some (EpOut.err nameErrorAction 1 0) :=
  ⟨⟨by decide, by decide, by decide, by decide⟩,
    unrecognized_policy_fails envO0 rO0 sa_valmat_init (1 / 10) 5 "greedy"
      (by decide) (by decide) (by decide) (by decide)⟩

/- ## Claim C8 -/

/-- The while-loop keeps rew equal to the running maximum (seeded with
0) of the step rewards seen so far. -/
theorem episodeLoop_ok_foldmax (envO : EnvOracle) (r : RandOracle) (sav : SAVal)
    (policy : String) (epsilon : ℚ) :
    ∀ (fuel : ℕ) (occ : Fin 16 → Fin 4 → ℕ) (state : Fin 16) (rewards : List ℚ)
      (rew : ℚ) (sc : ℕ) (occ2 : Fin 16 → Fin 4 → ℕ) (rewards2 : List ℚ)
      (rew2 : ℚ) (sc2 : ℕ),
      episodeLoop envO r sav policy epsilon fuel occ state rewards rew sc
          = some (SimOut.ok occ2 rewards2 rew2 sc2) →
      rew = rewards.foldl max 0 → rew2 = rewards2.foldl max 0 := by
  intro fuel
  induction fuel with
  | zero =>
    intro occ state rewards rew sc occ2 rewards2 rew2 sc2 h _
    simp [episodeLoop] at h
  | succ n ih =>
    intro occ state rewards rew sc occ2 rewards2 rew2 sc2 h hinv
    rw [episodeLoop] at h
    cases hsel : selectAction sav policy epsilon r (sc + 1) state with
    | error e => rw [hsel] at h; simp at h
    | ok action =>
      rw [hsel] at h
      simp only at h
      by_cases hd : (envO.step (sc + 1) state action).2.2
      · rw [if_pos hd] at h
        simp only [Option.some.injEq, SimOut.ok.injEq] at h
        obtain ⟨-, hrl, hrw, -⟩ := h
        rw [← hrl, ← hrw, hinv, List.foldl_append]
        rfl
      · rw [if_neg hd] at h
        exact ih _ _ _ _ _ _ _ _ _ h (by rw [hinv, List.foldl_append]; rfl)

/-- If every reward the environment can hand out is 0 or 1, the
running maximum stays 0 or 1. -/
theorem episodeLoop_ok_rew01 (envO : EnvOracle) (r : RandOracle) (sav : SAVal)
    (policy : String) (epsilon : ℚ)
    (h01 : ∀ k s a, (envO.step k s a).2.1 = 0 ∨ (envO.step k s a).2.1 = 1) :
    ∀ (fuel : ℕ) (occ : Fin 16 → Fin 4 → ℕ) (state : Fin 16) (rewards : List ℚ)
      (rew : ℚ) (sc : ℕ) (occ2 : Fin 16 → Fin 4 → ℕ) (rewards2 : List ℚ)
      (rew2 : ℚ) (sc2 : ℕ),
      episodeLoop envO r sav policy epsilon fuel occ state rewards rew sc
          = some (SimOut.ok occ2 rewards2 rew2 sc2) →
      (rew = 0 ∨ rew = 1) → (rew2 = 0 ∨ rew2 = 1) := by
  intro fuel
  induction fuel with
  | zero =>
    intro occ state rewards rew sc occ2 rewards2 rew2 sc2 h _
    simp [episodeLoop] at h
  | succ n ih =>
    intro occ state rewards rew sc occ2 rewards2 rew2 sc2 h hr
    rw [episodeLoop] at h
    cases hsel : selectAction sav policy epsilon r (sc + 1) state with
    | error e => rw [hsel] at h; simp at h
    | ok action =>
      rw [hsel] at h
      simp only at h
      have hmax : max rew (envO.step (sc + 1) state action).2.1 = 0
          ∨ max rew (envO.step (sc + 1) state action).2.1 = 1 := by
        rcases hr with hr | hr <;>
          rcases h01 (sc + 1) state action with hx | hx <;>
            rw [hr, hx] <;> norm_num
      by_cases hd : (envO.step (sc + 1) state action).2.2
      · rw [if_pos hd] at h
        simp only [Option.some.injEq, SimOut.ok.injEq] at h
        obtain ⟨-, -, hrw, -⟩ := h
        rw [← hrw]; exact hmax
      · rw [if_neg hd] at h
        exact ih _ _ _ _ _ _ _ _ _ h hmax

/-- Claim C8: the episode reward returned by one_iteration is the
maximum of 0 and all step rewards observed during the episode; in
particular, if every reward the environment can produce is 0 or 1,
the credited episode reward is 0 or 1 — never negative, never above 1
— under every exploration policy. -/
theorem episode_reward_bounds (envO : EnvOracle) (r : RandOracle) (sav : SAVal)
    (policy : String) (epsilon : ℚ) (fuel : ℕ)
    (hok : epOk (one_iteration envO r sav policy epsilon fuel) = true) :
    epRew (one_iteration envO r sav policy epsilon fuel)
        = (epRewards (one_iteration envO r sav policy epsilon fuel)).foldl max 0
      ∧ ((∀ k s a, (envO.step k s a).2.1 = 0 ∨ (envO.step k s a).2.1 = 1) →
          epRew (one_iteration envO r sav policy epsilon fuel) = 0
            ∨ epRew (one_iteration envO r sav policy epsilon fuel) = 1) := by
  obtain ⟨occ, rs, rw, sc, hL, hX⟩ :=
    one_iteration_ok_cases envO r sav policy epsilon fuel hok
  rw [hX]
  simp only [epRew, epRewards]
  constructor
  · exact episodeLoop_ok_foldmax envO r sav policy epsilon _ _ _ _ _ _ _ _ _ _ hL rfl
  · intro h01
    exact episodeLoop_ok_rew01 envO r sav policy epsilon h01 _ _ _ _ _ _ _ _ _ _ hL
      (Or.inl rfl)

/-- Witness for C8 on the single-step environment whose only reward
is 1. -/
theorem episode_reward_bounds_witness :
    epOk (one_iteration envO1 rO0 sa_valmat_init "random" (1 / 10) 5) = true
      ∧ (epRew (one_iteration envO1 rO0 sa_valmat_init "random" (1 / 10) 5)
          = (epRewards (one_iteration envO1 rO0 sa_valmat_init "random" (1 / 10) 5)).foldl max 0
        ∧ ((∀ k s a, (envO1.step k s a).2.1 = 0 ∨ (envO1.step k s a).2.1 = 1) →
            epRew (one_iteration envO1 rO0 sa_valmat_init "random" (1 / 10) 5) = 0
              ∨ epRew (one_iteration envO1 rO0 sa_valmat_init "random" (1 / 10) 5) = 1)) :=
  ⟨by decide,
    episode_reward_bounds envO1 rO0 sa_valmat_init "random" (1 / 10) 5 (by decide)⟩

/- ## Policy iteration solver (policy_evaluation, one_step_lookahead,
policy_iteration) -/

/-- One record of the transition table environment.P[state][action]:
(probability, next_state, reward, terminated). -/
structure Trans (nS : ℕ) where
  prob : ℚ
  next : Fin nS
  reward : ℚ
  terminal : Bool

/-- The known environment model consumed by the solver: nS states, nA
actions and the transition table environment.P. -/
structure MDP (nS nA : ℕ) where
  P : Fin nS → Fin nA → List (Trans nS)

variable {nS nA : ℕ}

/-- The inner accumulation of a sweep of policy_evaluation: v sums
action_probability * state_probability * (reward + discount_factor *
V[next_state]) over all actions and transition records of one state. -/
def stateValue (env : MDP nS nA) (policy : Fin nS → Fin nA → ℚ) (γ : ℚ)
    (V : Fin nS → ℚ) (s : Fin nS) : ℚ :=
  ((List.finRange nA).map fun a =>
    ((env.P s a).map fun t =>
      policy s a * (t.prob * (t.reward + γ * V t.next))).sum).sum

/-- The in-place state sweep of policy_evaluation over a list of
states: each state's value is recomputed from the partially updated V
(Gauss-Seidel style), and delta keeps the largest absolute change of
the sweep, compared against the not-yet-updated entry. -/
def sweepFrom (env : MDP nS nA) (policy : Fin nS → Fin nA → ℚ) (γ : ℚ) :
    List (Fin nS) → (Fin nS → ℚ) → ℚ → (Fin nS → ℚ) × ℚ
  | [], V, delta => (V, delta)
  | s :: rest, V, delta =>
    sweepFrom env policy γ rest
      (Function.update V s (stateValue env policy γ V s))
      (max delta |V s - stateValue env policy γ V s|)

/-- One full pass of the outer loop of policy_evaluation: sweep all
states in order with delta reset to 0. -/
def sweep (env : MDP nS nA) (policy : Fin nS → Fin nA → ℚ) (γ : ℚ)
    (V : Fin nS → ℚ) : (Fin nS → ℚ) × ℚ :=
  sweepFrom env policy γ (List.finRange nS) V 0

/-- The outer loop of policy_evaluation with its remaining iteration
budget: sweep, then return the updated V if delta < theta, else keep
going; falling off the loop (budget exhausted) yields none — the
model of the implicit None return of the Python function. -/
def peGo (env : MDP nS nA) (policy : Fin nS → Fin nA → ℚ) (γ θ : ℚ) :
    ℕ → (Fin nS → ℚ) → Option (Fin nS → ℚ)
  | 0, _ => none
  | n + 1, V =>
    if (sweep env policy γ V).2 < θ then some (sweep env policy γ V).1
    else peGo env policy γ θ n (sweep env policy γ V).1

/-- policy_evaluation of the notebook: V starts at np.zeros(nS); the
notebook defaults are theta = 1e-9 and max_iterations = 1e9. -/
def policy_evaluation (env : MDP nS nA) (policy : Fin nS → Fin nA → ℚ)
    (γ θ : ℚ) (max_iterations : ℕ) : Option (Fin nS → ℚ) :=
  peGo env policy γ θ max_iterations (fun _ => 0)

/-- The value function after k sweeps starting from V. -/
def iterFrom (env : MDP nS nA) (policy : Fin nS → Fin nA → ℚ) (γ : ℚ)
    (V : Fin nS → ℚ) : ℕ → (Fin nS → ℚ)
  | 0 => V
  | k + 1 => (sweep env policy γ (iterFrom env policy γ V k)).1

/-- The delta of sweep number k (0-based) starting from V. -/
def deltaFrom (env : MDP nS nA) (policy : Fin nS → Fin nA → ℚ) (γ : ℚ)
    (V : Fin nS → ℚ) (k : ℕ) : ℚ :=
  (sweep env policy γ (iterFrom env policy γ V k)).2

/-- The value function of policy_evaluation after k sweeps (from the
zero initial V). -/
def evalIter (env : MDP nS nA) (policy : Fin nS → Fin nA → ℚ) (γ : ℚ)
    (k : ℕ) : Fin nS → ℚ :=
  iterFrom env policy γ (fun _ => 0) k

/-- The delta of sweep number k of policy_evaluation. -/
def evalDelta (env : MDP nS nA) (policy : Fin nS → Fin nA → ℚ) (γ : ℚ)
    (k : ℕ) : ℚ :=
  deltaFrom env policy γ (fun _ => 0) k

theorem iterFrom_shift (env : MDP nS nA) (policy : Fin nS → Fin nA → ℚ)
    (γ : ℚ) (V : Fin nS → ℚ) (k : ℕ) :
    iterFrom env policy γ (sweep env policy γ V).1 k
      = iterFrom env policy γ V (k + 1) := by
  induction k with
  | zero => rfl
  | succ k ih =>
    show (sweep env policy γ (iterFrom env policy γ (sweep env policy γ V).1 k)).1
      = iterFrom env policy γ V (k + 1 + 1)
    rw [ih]
    rfl

theorem deltaFrom_shift (env : MDP nS nA) (policy : Fin nS → Fin nA → ℚ)
    (γ : ℚ) (V : Fin nS → ℚ) (k : ℕ) :
    deltaFrom env policy γ (sweep env policy γ V).1 k
      = deltaFrom env policy γ V (k + 1) := by
  unfold deltaFrom
  rw [iterFrom_shift]

/-- The evaluation loop returns none exactly when no sweep within the
budget gets its delta below theta. -/
theorem peGo_none_iff (env : MDP nS nA) (policy : Fin nS → Fin nA → ℚ)
    (γ θ : ℚ) :
    ∀ (n : ℕ) (V : Fin nS → ℚ),
      peGo env policy γ θ n V = none
        ↔ ∀ k, k < n → θ ≤ deltaFrom env policy γ V k := by
  intro n
  induction n with
  | zero => intro V; simp [peGo]
  | succ n ih =>
    intro V
    rw [peGo]
    by_cases hd : (sweep env policy γ V).2 < θ
    · rw [if_pos hd]
      constructor
      · intro h; exact (Option.some_ne_none _ h).elim
      · intro h
        exact absurd (h 0 (Nat.succ_pos n)) (not_le.mpr hd)
    · rw [if_neg hd]
      rw [ih]
      constructor
      · intro h k hk
        cases k with
        | zero => exact not_lt.mp hd
        | succ k =>
          have hk2 := h k (by omega)
          rwa [deltaFrom_shift] at hk2
      · intro h k hk
        rw [deltaFrom_shift]
        exact h (k + 1) (by omega)

/-- The evaluation loop returns the V of the first sweep whose delta
drops below theta, when that happens within the budget. -/
theorem peGo_some_first (env : MDP nS nA) (policy : Fin nS → Fin nA → ℚ)
    (γ θ : ℚ) :
    ∀ (n k : ℕ) (V : Fin nS → ℚ),
      k < n → deltaFrom env policy γ V k < θ →
      (∀ j, j < k → θ ≤ deltaFrom env policy γ V j) →
      peGo env policy γ θ n V = some (iterFrom env policy γ V (k + 1)) := by
  intro n
  induction n with
  | zero => intro k V hk; exact absurd hk (Nat.not_lt_zero k)
  | succ n ih =>
    intro k V hk hconv hmin
    rw [peGo]
    cases k with
    | zero =>
      have hconv2 : (sweep env policy γ V).2 < θ := hconv
      rw [if_pos hconv2]
      rfl
    | succ k =>
      have h0 : θ ≤ (sweep env policy γ V).2 := hmin 0 (Nat.succ_pos k)
      rw [if_neg (not_lt.mpr h0)]
      have hrec := ih k (sweep env policy γ V).1 (by omega)
        (by rw [deltaFrom_shift]; exact hconv)
        (fun j hj => by rw [deltaFrom_shift]; exact hmin (j + 1) (by omega))
      rw [hrec, iterFrom_shift]

/- ## Claim C2 -/

/-- Claim C2: for every policy, transition table, discount factor,
threshold and iteration budget, policy_evaluation terminates
successfully — returning the value function of the first sweep whose
maximum absolute change delta falls below the threshold — and
otherwise, when the budget is exhausted with every sweep's delta still
at or above the threshold, reports the non-convergence to the caller
as the distinguished empty result (the Python implicit None return)
instead of a value function. -/
theorem policy_evaluation_termination (env : MDP nS nA)
    (policy : Fin nS → Fin nA → ℚ) (γ θ : ℚ) (max_iterations : ℕ) :
    (policy_evaluation env policy γ θ max_iterations = none
        ↔ ∀ k, k < max_iterations → θ ≤ evalDelta env policy γ k)
      ∧ ∀ k, k < max_iterations → evalDelta env policy γ k < θ →
          (∀ j, j < k → θ ≤ evalDelta env policy γ j) →
          policy_evaluation env policy γ θ max_iterations
            = some (evalIter env policy γ (k + 1)) := by
  constructor
  · exact peGo_none_iff env policy γ θ max_iterations (fun _ => 0)
  · intro k hk hc hm
    exact peGo_some_first env policy γ θ max_iterations k (fun _ => 0) hk hc hm

/-- A valid one-state, one-action terminal transition table (the
single action ends the episode with reward 0) and the uniform policy
on it. -/
def env1 : MDP 1 1 := ⟨fun _ _ => [⟨1, 0, 0, true⟩]⟩

def pi1 : Fin 1 → Fin 1 → ℚ := fun _ _ => 1

theorem finRange_one : List.finRange 1 = [(0 : Fin 1)] := rfl

theorem evalDelta_env1_zero : evalDelta env1 pi1 1 0 = 0 := by
  have hsv : stateValue env1 pi1 1 (fun _ => 0) 0 = 0 := by
    norm_num [stateValue, env1, pi1, finRange_one]
  show (sweepFrom env1 pi1 1 (List.finRange 1) (fun _ => 0) 0).2 = 0
  rw [finRange_one]
  simp [sweepFrom, hsv]

/-- Witness for C2: on env1 the very first sweep converges. -/
theorem policy_evaluation_termination_witness :
    (0 : ℕ) < 3 ∧ evalDelta env1 pi1 1 0 < 1 / 2
      ∧ policy_evaluation env1 pi1 1 (1 / 2) 3 = some (evalIter env1 pi1 1 1) :=
  ⟨by decide, by rw [evalDelta_env1_zero]; norm_num,
    (policy_evaluation_termination env1 pi1 1 (1 / 2) 3).2 0 (by decide)
      (by rw [evalDelta_env1_zero]; norm_num)
      (fun j hj => absurd hj (Nat.not_lt_zero j))⟩

/- ## policy_iteration -/

/-- Accumulator of np.argmax over a list: position i, current best
value bv at current best index; a later element wins only when
strictly greater, so ties keep the first index. -/
def argmaxGo : List ℚ → ℕ → ℚ → ℕ → ℕ
  | [], _, _, best => best
  | x :: xs, i, bv, best =>
    if bv < x then argmaxGo xs (i + 1) x i else argmaxGo xs (i + 1) bv best

/-- np.argmax over a list of values: the index of the first maximal
element (0 on the empty list, where numpy would raise instead). -/
def np_argmax : List ℚ → ℕ
  | [] => 0
  | x :: xs => argmaxGo xs 1 x 0

/-- one_step_lookahead of the notebook: for one state, each action's
expected value probability * (reward + discount_factor *
V[next_state]) summed over the transition records (no mutation). -/
def one_step_lookahead (env : MDP nS nA) (state : Fin nS) (V : Fin nS → ℚ)
    (γ : ℚ) : Fin nA → ℚ :=
  fun a => ((env.P state a).map fun t => t.prob * (t.reward + γ * V t.next)).sum

/-- np.argmax applied to a row of nA values. -/
def greedyAction (row : Fin nA → ℚ) : ℕ :=
  np_argmax ((List.finRange nA).map row)

/-- The policy-improvement pass of policy_iteration: a state whose
current greedy action (argmax of its policy row) already equals the
lookahead arg-max keeps its row; any other state's row is replaced by
the one-hot row np.eye(nA)[best_action]. -/
def improvedPolicy (env : MDP nS nA) (γ : ℚ) (policy : Fin nS → Fin nA → ℚ)
    (V : Fin nS → ℚ) : Fin nS → Fin nA → ℚ :=
  fun s =>
    if greedyAction (policy s) = greedyAction (one_step_lookahead env s V γ)
    then policy s
    else fun a =>
      if (a : ℕ) = greedyAction (one_step_lookahead env s V γ) then 1 else 0

/-- The stable_policy flag of an improvement pass: no state changed
its greedy action. -/
def policyStable (env : MDP nS nA) (γ : ℚ) (policy : Fin nS → Fin nA → ℚ)
    (V : Fin nS → ℚ) : Bool :=
  (List.finRange nS).all fun s =>
    greedyAction (policy s) == greedyAction (one_step_lookahead env s V γ)

/-- The outer loop of policy_iteration with its remaining budget:
evaluate the current policy (a None from policy_evaluation makes the
Python crash when one_step_lookahead subscripts it, modelled as a
failed run), improve greedily, return (policy, V) when the pass was
stable; none when the outer budget runs out. -/
def piGo (env : MDP nS nA) (γ θ : ℚ) (evalBudget : ℕ) :
    ℕ → (Fin nS → Fin nA → ℚ) → Option ((Fin nS → Fin nA → ℚ) × (Fin nS → ℚ))
  | 0, _ => none
  | n + 1, policy =>
    match policy_evaluation env policy γ θ evalBudget with
    | none => none
    | some V =>
      if policyStable env γ policy V then some (policy, V)
      else piGo env γ θ evalBudget n (improvedPolicy env γ policy V)

/-- policy_iteration of the notebook, starting from the uniform
policy np.ones([nS, nA]) / nA.  The notebook passes only the discount
factor and uses policy_evaluation's defaults theta = 1e-9,
max_iterations = 1e9; both budgets are explicit parameters here. -/
def policy_iteration (env : MDP nS nA) (γ θ : ℚ)
    (max_iterations evalBudget : ℕ) :
    Option ((Fin nS → Fin nA → ℚ) × (Fin nS → ℚ)) :=
  piGo env γ θ evalBudget max_iterations (fun _ _ => 1 / (nA : ℚ))

/-- Any pair returned by the outer loop consists of a policy, its own
successful evaluation, and a stable improvement pass on them. -/
theorem piGo_some (env : MDP nS nA) (γ θ : ℚ) (evalBudget : ℕ) :
    ∀ (n : ℕ) (policy : Fin nS → Fin nA → ℚ)
      (pv : (Fin nS → Fin nA → ℚ) × (Fin nS → ℚ)),
      piGo env γ θ evalBudget n policy = some pv →
      policy_evaluation env pv.1 γ θ evalBudget = some pv.2
        ∧ policyStable env γ pv.1 pv.2 = true := by
  intro n
  induction n with
  | zero => intro policy pv h; simp [piGo] at h
  | succ n ih =>
    intro policy pv h
    rw [piGo] at h
    cases hE : policy_evaluation env policy γ θ evalBudget with
    | none => rw [hE] at h; simp at h
    | some V =>
      rw [hE] at h
      simp only at h
      by_cases hs : policyStable env γ policy V = true
      · rw [if_pos hs] at h
        simp only [Option.some.injEq] at h
        subst h
        exact ⟨hE, hs⟩
      · rw [if_neg hs] at h
        exact ih _ _ h

/-- A first-round evaluation failure makes the whole run fail. -/
theorem piGo_eval_none (env : MDP nS nA) (γ θ : ℚ) (evalBudget : ℕ)
    (policy : Fin nS → Fin nA → ℚ)
    (hE : policy_evaluation env policy γ θ evalBudget = none) :
    ∀ n, piGo env γ θ evalBudget n policy = none := by
  intro n
  cases n with
  | zero => rfl
  | succ n => rw [piGo, hE]

/- ## Claim C7 -/

/-- A valid one-state, one-action deterministic-reward transition
table: the single action loops back to the same state with reward 1
and is never terminal (probabilities sum to 1). -/
def selfLoop : MDP 1 1 := ⟨fun _ _ => [⟨1, 0, 1, false⟩]⟩

/-- On selfLoop with discount 1, every sweep moves the value up by 1,
so every sweep's delta is exactly 1, for every starting V. -/
theorem selfLoop_sweep_delta (V : Fin 1 → ℚ) :
    (sweep selfLoop (fun _ _ => 1 / ((1 : ℕ) : ℚ)) 1 V).2 = 1 := by
  have hsv : stateValue selfLoop (fun _ _ => 1 / ((1 : ℕ) : ℚ)) 1 V 0 = 1 + V 0 := by
    norm_num [stateValue, selfLoop, finRange_one]
  show (sweepFrom selfLoop (fun _ _ => 1 / ((1 : ℕ) : ℚ)) 1
      (List.finRange 1) V 0).2 = 1
  rw [finRange_one]
  simp only [sweepFrom, hsv]
  rw [show V 0 - (1 + V 0) = -1 from by ring]
  norm_num

/-- On selfLoop with discount 1, policy evaluation of the initial
uniform policy never converges: it exhausts the notebook's default
budget of 1e9 sweeps at the default threshold 1e-9 and reports
non-convergence. -/
theorem selfLoop_eval_none :
    policy_evaluation selfLoop (fun _ _ => 1 / ((1 : ℕ) : ℚ)) 1
      (1 / 1000000000) 1000000000 = none := by
  apply (peGo_none_iff selfLoop (fun _ _ => 1 / ((1 : ℕ) : ℚ)) 1
    (1 / 1000000000) 1000000000 (fun _ => 0)).mpr
  intro k hk
  show (1 : ℚ) / 1000000000
    ≤ (sweep selfLoop (fun _ _ => 1 / ((1 : ℕ) : ℚ)) 1
        (iterFrom selfLoop (fun _ _ => 1 / ((1 : ℕ) : ℚ)) 1 (fun _ => 0) k)).2
  rw [selfLoop_sweep_delta]
  norm_num

/-- Counterexample to claim C7 as stated: selfLoop is a finite
deterministic-reward MDP given as a valid transition table (one state,
one action, probabilities summing to 1), yet policy_iteration at the
notebook's default discount factor 1.0 and default budgets does not
terminate in at most state_count * action_count = 1 improvement
rounds returning a policy and value function — it returns no result
at all, because its very first policy evaluation never converges
(every sweep's delta is 1). -/
theorem policy_iteration_unbounded_cex :
    policy_iteration selfLoop 1 (1 / 1000000000) 1000000000 1000000000 = none := by
  show piGo selfLoop 1 (1 / 1000000000) 1000000000 1000000000
    (fun _ _ => 1 / ((1 : ℕ) : ℚ)) = none
  exact piGo_eval_none selfLoop 1 (1 / 1000000000) 1000000000
    (fun _ _ => 1 / ((1 : ℕ) : ℚ)) selfLoop_eval_none 1000000000

/-- Claim C7 (amended): policy_iteration does not terminate with a
result on every valid deterministic-reward table (see the
counterexample, where evaluation diverges at discount 1), and no
state_count * action_count round bound holds of the code; what does
hold is that whenever policy_iteration returns, the returned pair is a
policy together with its own successful evaluation, on which the
greedy improvement round halts as stable (no state changes its
action). -/
theorem policy_iteration_stable_return (env : MDP nS nA) (γ θ : ℚ)
    (max_iterations evalBudget : ℕ)
    (h : (policy_iteration env γ θ max_iterations evalBudget).isSome = true) :
    policy_evaluation env
        ((policy_iteration env γ θ max_iterations evalBudget).get h).1 γ θ
        evalBudget
      = some ((policy_iteration env γ θ max_iterations evalBudget).get h).2
      ∧ policyStable env γ
          ((policy_iteration env γ θ max_iterations evalBudget).get h).1
          ((policy_iteration env γ θ max_iterations evalBudget).get h).2
        = true := by
  obtain ⟨pv, hpv⟩ := Option.isSome_iff_exists.mp h
  have hget : (policy_iteration env γ θ max_iterations evalBudget).get h = pv := by
    simp [hpv]
  rw [hget]
  exact piGo_some env γ θ evalBudget max_iterations _ pv hpv

/-- On env1 the run converges in one round: the first evaluation
converges at once to the zero value function. -/
theorem env1_eval_converges :
    policy_evaluation env1 (fun _ _ => 1 / ((1 : ℕ) : ℚ)) 1 (1 / 2) 2
      = some (fun _ => 0) := by
  have hsv : stateValue env1 (fun _ _ => 1 / ((1 : ℕ) : ℚ)) 1 (fun _ => 0) 0 = 0 := by
    norm_num [stateValue, env1, finRange_one]
  have hs : sweep env1 (fun _ _ => 1 / ((1 : ℕ) : ℚ)) 1 (fun _ => 0)
      = ((fun _ => 0), 0) := by
    show sweepFrom env1 (fun _ _ => 1 / ((1 : ℕ) : ℚ)) 1
      (List.finRange 1) (fun _ => 0) 0 = ((fun _ => 0), 0)
    rw [finRange_one]
    simp only [sweepFrom, hsv, Prod.mk.injEq]
    constructor
    · exact Function.update_eq_self 0 (fun _ => 0)
    · simp
  show peGo env1 (fun _ _ => 1 / ((1 : ℕ) : ℚ)) 1 (1 / 2) (1 + 1) (fun _ => 0)
    = some (fun _ => 0)
  rw [peGo, hs]
  norm_num

theorem policy_iteration_env1 :
    policy_iteration env1 1 (1 / 2) 2 2
      = some ((fun _ _ => 1 / ((1 : ℕ) : ℚ)), (fun _ => 0)) := by
  show piGo env1 1 (1 / 2) 2 (1 + 1) (fun _ _ => 1 / ((1 : ℕ) : ℚ))
    = some ((fun _ _ => 1 / ((1 : ℕ) : ℚ)), (fun _ => 0))
  rw [piGo, env1_eval_converges]
  have hstable : policyStable env1 1 (fun _ _ => 1 / ((1 : ℕ) : ℚ)) (fun _ => 0)
      = true := by decide
  show (if policyStable env1 1 (fun _ _ => 1 / ((1 : ℕ) : ℚ)) (fun _ => 0) = true
      then some ((fun _ _ => 1 / ((1 : ℕ) : ℚ)), (fun _ => 0))
      else piGo env1 1 (1 / 2) 2 1
        (improvedPolicy env1 1 (fun _ _ => 1 / ((1 : ℕ) : ℚ)) (fun _ => 0)))
    = some ((fun _ _ => 1 / ((1 : ℕ) : ℚ)), (fun _ => 0))
  rw [if_pos hstable]

/-- Witness for C7 (amended) on the terminal one-state table. -/
theorem policy_iteration_stable_return_witness :
    (policy_iteration env1 1 (1 / 2) 2 2).isSome = true
      ∧ (policy_evaluation env1
            ((policy_iteration env1 1 (1 / 2) 2 2).get
              (by rw [policy_iteration_env1]; rfl)).1 1 (1 / 2) 2
          = some ((policy_iteration env1 1 (1 / 2) 2 2).get
              (by rw [policy_iteration_env1]; rfl)).2
        ∧ policyStable env1 1
            ((policy_iteration env1 1 (1 / 2) 2 2).get
              (by rw [policy_iteration_env1]; rfl)).1
            ((policy_iteration env1 1 (1 / 2) 2 2).get
              (by rw [policy_iteration_env1]; rfl)).2
          = true) :=
  ⟨by rw [policy_iteration_env1]; rfl,
    policy_iteration_stable_return env1 1 (1 / 2) 2 2
      (by rw [policy_iteration_env1]; rfl)⟩

/- ## train_and_test -/

/-- Result of a Python call: a normal return, or a raised exception. -/
inductive PyResult (α : Type) where
  | ok (a : α)
  | exn (msg : String)
deriving DecidableEq

/-- The 10-episode random-policy warm-up loop of train_and_test,
carrying (remaining episodes, episode index into the oracle streams,
the matrix, train_wins).  The Python call passes only the policy, so
one_iteration runs at its default epsilon 0.1 (irrelevant for the
random policy). -/
def warmLoop (envO : ℕ → EnvOracle) (r : ℕ → RandOracle) (fuel : ℕ) :
    ℕ → ℕ → SAVal → ℚ → Option (PyResult (SAVal × ℚ × ℕ))
  | 0, idx, sav, tw => some (PyResult.ok (sav, tw, idx))
  | n + 1, idx, sav, tw =>
    match one_iteration (envO idx) (r idx) sav "random" (1 / 10) fuel with
    | none => none
    | some (EpOut.err m _ _) => some (PyResult.exn m)
    | some (EpOut.ok sav2 _ _ rew _) =>
      warmLoop envO r fuel n (idx + 1) sav2 (tw + rew)

/-- The training loop of train_and_test.  The notebook computes
epsilon = 0.5 - (np.exp(i/train_epochs) / (1 + np.exp(i/train_epochs))) / 2,
a transcendental logistic decay that has no exact rational value, so
the schedule is an explicit oracle parameter epsSched i train_epochs
here; no claim settled in this file depends on its values. -/
def trainLoop (envO : ℕ → EnvOracle) (r : ℕ → RandOracle)
    (epsSched : ℕ → ℕ → ℚ) (train_epochs fuel : ℕ) (policy : String) :
    ℕ → ℕ → ℕ → SAVal → ℚ → Option (PyResult (SAVal × ℚ × ℕ))
  | 0, _, idx, sav, tw => some (PyResult.ok (sav, tw, idx))
  | n + 1, i, idx, sav, tw =>
    match one_iteration (envO idx) (r idx) sav policy
        (epsSched i train_epochs) fuel with
    | none => none
    | some (EpOut.err m _ _) => some (PyResult.exn m)
    | some (EpOut.ok sav2 _ _ rew _) =>
      trainLoop envO r epsSched train_epochs fuel policy n (i + 1) (idx + 1)
        sav2 (tw + rew)

/-- The test loop of train_and_test together with the return
statement.  With test_epochs = 0 the loop body never runs and the
return statement (return test_win, test_wins/test_epochs, train_wins,
train_wins/train_epochs) raises a NameError: no variable test_win is
defined anywhere in the notebook.  With test_epochs >= 1 the first
test episode (tiny_epsilon at epsilon 0) completes and the next line
wins += rew_pol raises a NameError — wins is undefined too (as is
logging_test_step_count on the line after) — so the loop never reaches
a second episode and the function never returns. -/
def testLoop (envO : ℕ → EnvOracle) (r : ℕ → RandOracle) (fuel : ℕ) :
    ℕ → ℕ → SAVal → Option (PyResult (ℚ × ℚ × ℚ × ℚ))
  | 0, _, _ => some (PyResult.exn "NameError: name test_win is not defined")
  | _ + 1, idx, sav =>
    match one_iteration (envO idx) (r idx) sav "tiny_epsilon" 0 fuel with
    | none => none
    | some (EpOut.err m _ _) => some (PyResult.exn m)
    | some (EpOut.ok _ _ _ _ _) =>
      some (PyResult.exn "NameError: name wins is not defined")

/-- train_and_test of the notebook: initialize sa_valmat (0.01 on the
average channel), run the 10-episode random warm-up, the training
episodes under the chosen policy, then the test phase. -/
def train_and_test (envO : ℕ → EnvOracle) (r : ℕ → RandOracle)
    (epsSched : ℕ → ℕ → ℚ) (fuel : ℕ) (policy : String)
    (train_epochs test_epochs : ℕ) : Option (PyResult (ℚ × ℚ × ℚ × ℚ)) :=
  match warmLoop envO r fuel 10 0 sa_valmat_init 0 with
  | none => none
  | some (PyResult.exn m) => some (PyResult.exn m)
  | some (PyResult.ok (sav, tw, idx)) =>
    match trainLoop envO r epsSched train_epochs fuel policy train_epochs 0 idx
        sav tw with
    | none => none
    | some (PyResult.exn m) => some (PyResult.exn m)
    | some (PyResult.ok (sav2, _, idx2)) => testLoop envO r fuel test_epochs idx2 sav2

/-- Constant oracle streams for concrete runs. -/
def envO0c : ℕ → EnvOracle := fun _ => envO0

def rO0c : ℕ → RandOracle := fun _ => rO0

def sched0 : ℕ → ℕ → ℚ := fun _ _ => 0

/- ## Claim C3 -/

/-- Claim C3 (code bug): train_and_test never returns the claimed
four-tuple.  At the concrete failing input (random policy, 0 training
episodes, 1 test episode, an environment whose episodes finish in one
step) the first test episode is followed by wins += rew_pol, which
raises a NameError because wins is undefined; and even with zero test
episodes the return statement raises a NameError on the undefined
test_win.  (That return statement, had it run, also lists the test
figures before the train figures, unlike the claimed order.) -/
theorem train_and_test_name_error :
    train_and_test envO0c rO0c sched0 5 "random" 0 1
        = some (PyResult.exn "NameError: name wins is not defined")
      ∧ train_and_test envO0c rO0c sched0 5 "random" 0 0
        = some (PyResult.exn "NameError: name test_win is not defined") := by
  constructor <;> decide

end GamesAI
